import Mathlib

/-!
Shallow embedding of the data-validation core of the repository
(`src/data_preparation/data_validation.py`, class `DataValidator`).

Datasets are modelled as lists of named, dtype-tagged columns whose cells are
either null (pandas NaN/None), a rational number (modelling the numeric value
of an int64/float64 cell, with timestamps as epoch numbers), or a string.
The float arithmetic of the source is modelled over the rationals; a float
NaN produced by the source (0/0 under numpy, statistics of empty columns) is
modelled as the `none` of `PyFloat := Option Rat`, with the source's Python
`min`/`max` NaN behaviour (they keep the first argument on an unordered
comparison) reproduced explicitly.  A raised Python exception (in particular
`ZeroDivisionError` from integer division by zero) is modelled by returning
`none` from the whole operation (`Option`-valued results).

The `data_distribution` block of `check_data_quality` (source lines 118-132)
only fills report fields that no other computation reads and can raise no
exception; it is not carried in the embedded report.
-/

namespace DataVal

/-- A cell of a tabular dataset: null (NaN/None), a numeric value, or a string. -/
inductive CVal where
  | null : CVal
  | num : ℚ → CVal
  | str : String → CVal
deriving DecidableEq

/-- A named column with its pandas dtype string and its cells. -/
structure Column where
  name : String
  dtype : String
  cells : List CVal
deriving DecidableEq

/-- A dataset is the ordered list of its columns (a pandas DataFrame). -/
abbrev Dataset := List Column

/-- Python float values: `none` models a float NaN. -/
abbrev PyFloat := Option ℚ

def isNull : CVal → Bool
  | .null => true
  | _ => false

def toNum : CVal → Option ℚ
  | .num q => some q
  | _ => none

/-- The non-null numeric values of a column (what pandas folds skip NaN over). -/
def numsOf (c : Column) : List ℚ := c.cells.filterMap toNum

/-- `df[col].dtype in ['int64', 'float64']` (the source's numeric-column test). -/
def isNumericCol (c : Column) : Bool := c.dtype = "int64" || c.dtype = "float64"

/-- `len(df)`: the row count, read off the first column. -/
def rows (df : Dataset) : ℕ :=
  match df with
  | [] => 0
  | c :: _ => c.cells.length

/-- `df[name]`: column lookup by name. -/
def getCol (df : Dataset) (n : String) : Option Column :=
  df.find? (fun c => c.name = n)

def colNames (df : Dataset) : List String := df.map Column.name

/-! ### NaN-aware float arithmetic helpers -/

def nAdd : PyFloat → PyFloat → PyFloat
  | some a, some b => some (a + b)
  | _, _ => none

def nSub : PyFloat → PyFloat → PyFloat
  | some a, some b => some (a - b)
  | _, _ => none

def nMulC (a : PyFloat) (c : ℚ) : PyFloat := a.map (fun x => x * c)

def nDivC (a : PyFloat) (c : ℚ) : PyFloat := a.map (fun x => x / c)

/-- Python `min(a, c)` for a float `a` that may be NaN: NaN propagates
(Python's `min` keeps the first argument when the comparison is false). -/
def pyMinC (a : PyFloat) (c : ℚ) : PyFloat := a.map (fun x => min x c)

/-- Python `max(a, c)` for a float `a` that may be NaN: NaN propagates. -/
def pyMaxC (a : PyFloat) (c : ℚ) : PyFloat := a.map (fun x => max x c)

/-- Python `sum` over floats: NaN-propagating. -/
def nanSum (l : List PyFloat) : PyFloat := l.foldr nAdd (some 0)

/-- Round-half-to-even to an integer (Python's `round`). -/
def rhe (q : ℚ) : ℤ :=
  if q - ⌊q⌋ < 1 / 2 then ⌊q⌋
  else if 1 / 2 < q - ⌊q⌋ then ⌊q⌋ + 1
  else if (2 : ℤ) ∣ ⌊q⌋ then ⌊q⌋ else ⌊q⌋ + 1

/-- Python `round(q, 2)`. -/
def pyRound2 (q : ℚ) : ℚ := (rhe (q * 100) : ℚ) / 100

/-! ### QualityProfiler: `check_data_quality` and `_calculate_quality_score` -/

/-- `df[col].isnull().sum()`. -/
def missCount (c : Column) : ℕ := c.cells.countP isNull

/-- `round((missing_count / len(df)) * 100, 2)`: a 0-row dataset divides the
numpy integer 0 by the Python int 0, which yields float NaN. -/
def missPct (df : Dataset) (c : Column) : PyFloat :=
  if rows df = 0 then none
  else some (pyRound2 ((missCount c : ℚ) / (rows df : ℚ) * 100))

/-- The `missing_value_summary` map: per column, count and percentage. -/
def missingSummary (df : Dataset) : List (String × ℕ × PyFloat) :=
  df.map (fun c => (c.name, missCount c, missPct df c))

/-- The rows of the dataset, by position (for `df.duplicated()`). -/
def rowsOf (df : Dataset) : List (List CVal) :=
  (List.range (rows df)).map (fun i => df.map (fun c => c.cells.getD i CVal.null))

/-- `df.duplicated().sum()`: occurrences beyond the first of each distinct row. -/
def dupCount (df : Dataset) : ℕ := (rowsOf df).length - (rowsOf df).dedup.length

/-- The column's non-null values, sorted (the ranks pandas quantiles act on). -/
def sortedNums (c : Column) : List ℚ := (numsOf c).insertionSort (fun a b => a ≤ b)

/-- Pandas `Series.quantile(q)` with linear interpolation, on a sorted
nonempty list of the non-null values. -/
def qtl (s : List ℚ) (q : ℚ) : ℚ :=
  let pos : ℚ := q * ((s.length : ℚ) - 1)
  let i : ℕ := Int.toNat ⌊pos⌋
  let xi := s.getD i 0
  let xj := s.getD (i + 1) xi
  xi + (pos - (i : ℚ)) * (xj - xi)

/-- The Tukey fences `[Q1 - 1.5*IQR, Q3 + 1.5*IQR]`; `none` models the NaN
bounds of an all-null column (every comparison with them is false). -/
def qBounds (c : Column) : Option (ℚ × ℚ) :=
  let s := sortedNums c
  if s.isEmpty then none
  else
    let q1 := qtl s (1 / 4)
    let q3 := qtl s (3 / 4)
    let iqr := q3 - q1
    some (q1 - 3 / 2 * iqr, q3 + 3 / 2 * iqr)

/-- `len(df[(df[col] < lower_bound) | (df[col] > upper_bound)])`: null cells
compare false on both sides. -/
def outCount (c : Column) : ℕ :=
  match qBounds c with
  | none => 0
  | some (lo, hi) =>
      c.cells.countP (fun v =>
        match v with
        | .num q => decide (q < lo) || decide (hi < q)
        | _ => false)

/-- The `outlier_summary` loop over numeric columns.  With `len(df) = 0` the
percentage `(len(outliers) / len(df)) * 100` is a Python int division by
zero, so the first numeric column raises `ZeroDivisionError` (`none`). -/
def outlierSummary (df : Dataset) : Option (List (String × ℕ × ℚ)) :=
  let ncols := df.filter isNumericCol
  if rows df = 0 then (if ncols.isEmpty then some [] else none)
  else
    some (ncols.map (fun c =>
      (c.name, outCount c, pyRound2 ((outCount c : ℚ) / (rows df : ℚ) * 100))))

/-- `_calculate_quality_score`: start at 100, deduct the three capped
penalties, clamp below at 0.  Dividing by `len(missing_value_summary)` raises
`ZeroDivisionError` on a zero-column dataset (outer `none`); a NaN missing
percentage (zero rows) propagates into a NaN score (inner `none`). -/
def calcQualityScore (ms : List (String × ℕ × PyFloat)) (nrows dups : ℕ)
    (os : List (String × ℕ × ℚ)) : Option PyFloat :=
  if ms.isEmpty then none
  else
    let totalMissing : PyFloat := nDivC (nanSum (ms.map (fun p => p.2.2))) (ms.length : ℚ)
    let s1 : PyFloat := nSub (some 100) (pyMinC (nMulC totalMissing (1 / 2)) 30)
    let s2 : PyFloat :=
      if 0 < nrows then
        nSub s1 (pyMinC (nMulC (some ((dups : ℚ) / (nrows : ℚ) * 100)) (3 / 10)) 20)
      else s1
    let totalOutlier : ℚ := (os.map (fun p => p.2.2)).sum / (max os.length 1 : ℕ)
    let s3 : PyFloat := nSub s2 (some (min (totalOutlier * (1 / 5)) 15))
    some (pyMaxC s3 0)

/-- The quality report returned by `check_data_quality`. -/
structure QualityReport where
  total_rows : ℕ
  total_columns : ℕ
  missing_value_summary : List (String × ℕ × PyFloat)
  duplicate_rows : ℕ
  outlier_summary : List (String × ℕ × ℚ)
  quality_score : PyFloat
deriving DecidableEq

/-- `check_data_quality`: missing-value summary, duplicate count, outlier
summary, then the score; `none` models a raised exception. -/
def check_data_quality (df : Dataset) : Option QualityReport :=
  match outlierSummary df with
  | none => none
  | some os =>
    match calcQualityScore (missingSummary df) (rows df) (dupCount df) os with
    | none => none
    | some sc => some ⟨rows df, df.length, missingSummary df, dupCount df, os, sc⟩

/-! ### SchemaChecker: `validate_data_schema` and `_types_compatible` -/

/-- The source's `type_mappings` dict, in its insertion order. -/
def typeMappings : List (String × List String) :=
  [("int64", ["int", "integer", "numeric"]),
   ("float64", ["float", "numeric", "decimal"]),
   ("object", ["string", "text", "categorical"]),
   ("datetime64[ns]", ["datetime", "timestamp"]),
   ("bool", ["boolean", "bool"])]

/-- Python's `needle in hay` substring test. -/
def strContainsSub (hay needle : String) : Bool := decide (needle.toList <:+: hay.toList)

/-- `_types_compatible`: the first table key that occurs as a substring of the
lowered actual dtype decides; no match means incompatible. -/
def types_compatible (actual expected : String) : Bool :=
  match typeMappings.find? (fun p => strContainsSub actual.toLower p.1) with
  | some p => p.2.contains expected.toLower
  | none => false

/-- The result dict of `validate_data_schema`. -/
structure SchemaResult where
  schema_valid : Bool
  missing_columns : Finset String
  unexpected_columns : Finset String
  type_mismatches : List (String × String × String)
deriving DecidableEq

/-- `validate_data_schema`: set differences of expected and actual column
names, per-column type compatibility, and the validity flag that starts true
and is cleared by any finding. -/
def validate_data_schema (df : Dataset) (sch : List (String × String)) : SchemaResult :=
  let expectedCols : Finset String := (sch.map Prod.fst).toFinset
  let actualCols : Finset String := (colNames df).toFinset
  let missing := expectedCols \ actualCols
  let unexpected := actualCols \ expectedCols
  let validAfterCols : Bool := if missing.Nonempty ∨ unexpected.Nonempty then false else true
  let mismatches : List (String × String × String) :=
    sch.filterMap (fun p =>
      match getCol df p.1 with
      | some c => if types_compatible c.dtype p.2 then none else some (p.1, p.2, c.dtype)
      | none => none)
  ⟨validAfterCols && mismatches.isEmpty, missing, unexpected, mismatches⟩

/-- `validate_data_schema` on a possibly-null DataFrame argument: Python's
`None.columns` raises `AttributeError` (`none`); the function body itself has
no raise path. -/
def validate_data_schema_opt (df? : Option Dataset) (sch : List (String × String)) :
    Option SchemaResult :=
  df?.map (fun df => validate_data_schema df sch)

/-! ### BusinessRuleEngine: `validate_business_rules`

The source samples `current_time = datetime.now()` inside the function; the
ambient clock value it reads is passed here as the explicit `now` argument
(timestamps are modelled as epoch rationals). -/

structure Violation where
  rule : String
  violation_count : ℕ
  description : String
deriving DecidableEq

structure BRResult where
  valid : Bool
  violations : List Violation
deriving DecidableEq

/-- Count of cells whose numeric value satisfies `p` (null and non-numeric
cells compare false in the pandas boolean masks of the source). -/
def cntNumP (c : Column) (p : ℚ → Bool) : ℕ :=
  c.cells.countP (fun v =>
    match v with
    | .num q => p q
    | _ => false)

def ruleAmount (df : Dataset) : List Violation :=
  match getCol df "transaction_amount" with
  | none => []
  | some c =>
      let k := cntNumP c (fun q => q ≤ 0)
      if 0 < k then
        [⟨"positive_transaction_amounts", k, "Transaction amounts must be positive"⟩]
      else []

def ruleAge (df : Dataset) : List Violation :=
  match getCol df "age" with
  | none => []
  | some c =>
      let k := cntNumP c (fun q => q < 18 || 120 < q)
      if 0 < k then
        [⟨"reasonable_customer_age", k, "Customer age should be between 18 and 120"⟩]
      else []

def dateColumns : List String := ["transaction_timestamp", "registration_date"]

/-- One iteration of the future-date loop: count of values strictly after the
sampled instant, reported when nonzero. -/
def dateViolation (df : Dataset) (now : ℚ) (n : String) : List Violation :=
  match getCol df n with
  | none => []
  | some c =>
      let k := cntNumP c (fun q => now < q)
      if 0 < k then
        [⟨"no_future_dates_" ++ n, k, n ++ " should not be in the future"⟩]
      else []

def ruleDates (df : Dataset) (now : ℚ) : List Violation :=
  dateColumns.flatMap (dateViolation df now)

/-- All values of the monitored date columns (the data the sampled instant is
compared against). -/
def dateColVals (df : Dataset) : List ℚ :=
  dateColumns.flatMap (fun n =>
    match getCol df n with
    | none => []
    | some c => numsOf c)

/-- `validate_business_rules`: the three rule blocks in source order; the
`valid` flag is cleared exactly when a violation is appended. -/
def validate_business_rules (df : Dataset) (now : ℚ) : BRResult :=
  let vs := ruleAmount df ++ ruleAge df ++ ruleDates df now
  ⟨vs.isEmpty, vs⟩

/-! ### DriftDetector: `detect_data_drift`

The numeric drift score divides by the sample standard deviation, an
irrational square root in general, so the score carrier is `Option ℝ`
(`none` models float NaN: the std of fewer than two values, or a NaN mean). -/

/-- `Series.mean()`: NaN when there is no non-null value. -/
def colMean (c : Column) : PyFloat :=
  if (numsOf c).isEmpty then none
  else some ((numsOf c).sum / ((numsOf c).length : ℚ))

/-- `Series.std()` squared: the sample variance (ddof = 1); NaN (`none`) for
fewer than two non-null values. -/
def colVar (c : Column) : PyFloat :=
  let l := numsOf c
  if l.length ≤ 1 then none
  else some ((l.map (fun x => (x - l.sum / (l.length : ℚ)) ^ 2)).sum / ((l.length : ℚ) - 1))

/-- The source's `ref_std != 0` under float semantics: a NaN std is `!= 0`. -/
def stdNePy (c : Column) : Bool :=
  match colVar c with
  | none => true
  | some v => decide (v ≠ 0)

/-- `abs(cur_mean - ref_mean) / ref_std`; NaN operands give NaN. -/
noncomputable def numScore (rc cc : Column) : Option ℝ :=
  match colVar rc, colMean rc, colMean cc with
  | some v, some rm, some cm => some (|(cm : ℝ) - (rm : ℝ)| / Real.sqrt (v : ℝ))
  | _, _, _ => none

structure NumDrift where
  drift_score : Option ℝ
  drift_detected : Bool
  reference_mean : PyFloat
  current_mean : PyFloat

/-- One entry of `numerical_drift`; `NaN > threshold` is false. -/
noncomputable def numEntry (rc cc : Column) (tn : ℚ) : NumDrift :=
  { drift_score := numScore rc cc
    drift_detected :=
      match numScore rc cc with
      | none => false
      | some x => if (tn : ℝ) < x then true else false
    reference_mean := colMean rc
    current_mean := colMean cc }

structure CatDrift where
  drift_score : ℚ
  drift_detected : Bool
deriving DecidableEq

/-- The non-null values of a column (what `value_counts` tabulates). -/
def catVals (c : Column) : List CVal := c.cells.filter (fun v => !isNull v)

/-- `value_counts(normalize=True).get(v, 0)`: the proportion of value `v`
among the non-null cells (0 on an empty tabulation, via `0 / 0 = 0`). -/
def propOf (c : Column) (v : CVal) : ℚ :=
  ((catVals c).count v : ℚ) / ((catVals c).length : ℚ)

/-- The categorical drift score: total absolute difference of the two
normalized distributions over the union of observed categories. -/
def catScore (rc cc : Column) : ℚ :=
  ((catVals rc).toFinset ∪ (catVals cc).toFinset).sum
    (fun v => |propOf rc v - propOf cc v|)

def catEntry (rc cc : Column) (tc : ℚ) : CatDrift :=
  ⟨catScore rc cc, decide (tc < catScore rc cc)⟩

structure DriftReport where
  drift_detected : Bool
  numerical_drift : List (String × NumDrift)
  categorical_drift : List (String × CatDrift)
  overall_drift_score : Option ℝ

/-- `set(reference_df.columns) & set(current_df.columns)`, enumerated in
first-appearance order on the reference side. -/
def commonNames (rdf cdf : Dataset) : List String :=
  (colNames rdf).dedup.filter (fun n => (colNames cdf).contains n)

/-- NaN-propagating sum of float drift scores. -/
def rSum (l : List (Option ℝ)) : Option ℝ :=
  l.foldr (fun a b =>
    match a, b with
    | some x, some y => some (x + y)
    | _, _ => none) (some 0)

/-- `np.mean` over the collected scores, with the report's 0.0 default for an
empty collection. -/
noncomputable def pyMeanR (l : List (Option ℝ)) : Option ℝ :=
  if l.isEmpty then some 0 else (rSum l).map (fun s => s / (l.length : ℝ))

/-- The per-column numeric branch of the drift loop: numeric dtype on the
reference side, skipped entirely when `ref_std != 0` fails. -/
noncomputable def numPairs (rdf cdf : Dataset) (tn : ℚ) : List (String × NumDrift) :=
  (commonNames rdf cdf).filterMap (fun n =>
    match getCol rdf n, getCol cdf n with
    | some rc, some cc =>
        if isNumericCol rc then
          (if stdNePy rc then some (n, numEntry rc cc tn) else none)
        else none
    | _, _ => none)

/-- The per-column categorical branch of the drift loop. -/
def catPairs (rdf cdf : Dataset) (tc : ℚ) : List (String × CatDrift) :=
  (commonNames rdf cdf).filterMap (fun n =>
    match getCol rdf n, getCol cdf n with
    | some rc, some cc =>
        if isNumericCol rc then none else some (n, catEntry rc cc tc)
    | _, _ => none)

/-- `detect_data_drift`: per-column drift over the common columns, the
overall score as the mean of all collected per-column scores, and the global
flag as the disjunction of the per-column flags. -/
noncomputable def detect_data_drift (rdf cdf : Dataset) (tn tc : ℚ) : DriftReport :=
  let nps := numPairs rdf cdf tn
  let cps := catPairs rdf cdf tc
  let allScores : List (Option ℝ) :=
    nps.map (fun p => p.2.drift_score) ++ cps.map (fun p => some ((p.2.drift_score : ℚ) : ℝ))
  { drift_detected :=
      (nps.map (fun p => p.2.drift_detected) ++ cps.map (fun p => p.2.drift_detected)).any id
    numerical_drift := nps
    categorical_drift := cps
    overall_drift_score := pyMeanR allScores }

/-! ### Concrete datasets used as test vectors -/

/-- A zero-row dataset with a single numeric column. -/
def dfNumEmpty : Dataset := [⟨"x", "int64", []⟩]

/-- A zero-row dataset with a single non-numeric column. -/
def dfObjEmpty : Dataset := [⟨"s", "object", []⟩]

/-- A one-row numeric dataset. -/
def dfOne : Dataset := [⟨"x", "int64", [CVal.num 1]⟩]

/-- A dataset with a single timestamp value 5 in a monitored date column. -/
def dfDates : Dataset := [⟨"transaction_timestamp", "float64", [CVal.num 5]⟩]

/-- A one-column dataset, for the schema checker. -/
def dfOneCol : Dataset := [⟨"a", "int64", [CVal.num 1]⟩]

/-- A numeric column with two equal values: sample variance 0. -/
def refConst : Dataset := [⟨"x", "int64", [CVal.num 1, CVal.num 1]⟩]

/-- A numeric column with two distinct values: positive sample variance. -/
def dfNum6 : Dataset := [⟨"x", "float64", [CVal.num 1, CVal.num 3]⟩]

/-- A one-value categorical dataset. -/
def dfCat : Dataset := [⟨"c", "object", [CVal.str "a"]⟩]

/-- Categorical reference: all cells are "a". -/
def refCat : Dataset := [⟨"c", "object", [CVal.str "a"]⟩]

/-- Categorical current: all cells are "b". -/
def curCat : Dataset := [⟨"c", "object", [CVal.str "b"]⟩]

end DataVal

namespace DataVal

/-! ### Helper lemmas -/

theorem rhe_nonneg {q : ℚ} (h : 0 ≤ q) : 0 ≤ rhe q := by
  unfold rhe
  have hf : (0 : ℤ) ≤ ⌊q⌋ := Int.floor_nonneg.mpr h
  split_ifs <;> omega

theorem pyRound2_nonneg {q : ℚ} (h : 0 ≤ q) : 0 ≤ pyRound2 q := by
  unfold pyRound2
  have := rhe_nonneg (q := q * 100) (by positivity)
  positivity

theorem nanSum_some_nonneg (l : List PyFloat)
    (h : ∀ a ∈ l, ∃ x, a = some x ∧ 0 ≤ x) :
    ∃ s, nanSum l = some s ∧ 0 ≤ s := by
  induction l with
  | nil => exact ⟨0, rfl, le_refl 0⟩
  | cons a t ih =>
    obtain ⟨x, hax, hx⟩ := h a (by simp)
    obtain ⟨s, hs, hsn⟩ := ih (fun b hb => h b (by simp [hb]))
    refine ⟨x + s, ?_, add_nonneg hx hsn⟩
    simp only [nanSum, List.foldr_cons] at hs ⊢
    rw [hax, hs]
    rfl

theorem outlierSummary_eq_none_iff (df : Dataset) :
    outlierSummary df = none ↔ rows df = 0 ∧ df.filter isNumericCol ≠ [] := by
  unfold outlierSummary
  by_cases h1 : rows df = 0
  · by_cases h2 : (df.filter isNumericCol).isEmpty = true
    · rw [if_pos h1, if_pos h2]
      simp [List.isEmpty_iff.mp h2]
    · rw [if_pos h1, if_neg h2]
      simp only [List.isEmpty_iff] at h2
      simp [h1, h2]
  · rw [if_neg h1]
    simp [h1]

theorem calcQualityScore_eq_none_iff (ms : List (String × ℕ × PyFloat))
    (nrows dups : ℕ) (os : List (String × ℕ × ℚ)) :
    calcQualityScore ms nrows dups os = none ↔ ms = [] := by
  unfold calcQualityScore
  by_cases h : ms.isEmpty = true
  · rw [if_pos h]
    simp [List.isEmpty_iff.mp h]
  · rw [if_neg h]
    simp only [List.isEmpty_iff] at h
    simp [h]

theorem calcQualityScore_bounds (ms : List (String × ℕ × PyFloat)) (nrows dups : ℕ)
    (os : List (String × ℕ × ℚ)) (hms : ms ≠ [])
    (hmv : ∀ p ∈ ms, ∃ x, p.2.2 = some x ∧ 0 ≤ x)
    (hov : ∀ p ∈ os, 0 ≤ p.2.2) :
    ∃ q, calcQualityScore ms nrows dups os = some (some q) ∧ 35 ≤ q ∧ q ≤ 100 := by
  obtain ⟨S, hS, hSn⟩ := nanSum_some_nonneg (ms.map (fun p => p.2.2))
    (by intro a ha; obtain ⟨p, hp, rfl⟩ := List.mem_map.mp ha; exact hmv p hp)
  have hL : (0 : ℚ) < (ms.length : ℚ) := by
    have : 0 < ms.length := List.length_pos.mpr hms
    exact_mod_cast this
  have hOut : (0 : ℚ) ≤ (os.map (fun p => p.2.2)).sum / ((max os.length 1 : ℕ) : ℚ) := by
    apply div_nonneg
    · apply List.sum_nonneg
      intro x hx
      obtain ⟨p, hp, rfl⟩ := List.mem_map.mp hx
      exact hov p hp
    · positivity
  unfold calcQualityScore
  rw [if_neg (by simp [List.isEmpty_iff, hms])]
  simp only [hS, nDivC, nMulC, pyMinC, pyMaxC, nSub, Option.map_some']
  set A : ℚ := S / (ms.length : ℚ) * (1 / 2) with hA
  have hAn : 0 ≤ A := by
    rw [hA]
    have : (0 : ℚ) ≤ S / (ms.length : ℚ) := div_nonneg hSn (le_of_lt hL)
    linarith
  set B : ℚ := (dups : ℚ) / (nrows : ℚ) * 100 * (3 / 10) with hB
  have hBn : 0 ≤ B := by
    rw [hB]
    have hdn : (0 : ℚ) ≤ (dups : ℚ) / (nrows : ℚ) := by positivity
    linarith
  set C : ℚ := (os.map (fun p => p.2.2)).sum / ((max os.length 1 : ℕ) : ℚ) * (1 / 5) with hC
  have hCn : 0 ≤ C := by rw [hC]; linarith
  have hm1 : 0 ≤ min A 30 ∧ min A 30 ≤ 30 := ⟨le_min hAn (by norm_num), min_le_right _ _⟩
  have hm2 : 0 ≤ min B 20 ∧ min B 20 ≤ 20 := ⟨le_min hBn (by norm_num), min_le_right _ _⟩
  have hm3 : 0 ≤ min C 15 ∧ min C 15 ≤ 15 := ⟨le_min hCn (by norm_num), min_le_right _ _⟩
  by_cases hn : 0 < nrows
  · rw [if_pos hn]
    refine ⟨max (100 - min A 30 - min B 20 - min C 15) 0, rfl, ?_, ?_⟩
    · have : (35 : ℚ) ≤ 100 - min A 30 - min B 20 - min C 15 := by linarith [hm1.2, hm2.2, hm3.2]
      exact le_trans this (le_max_left _ _)
    · exact max_le (by linarith [hm1.1, hm2.1, hm3.1]) (by norm_num)
  · rw [if_neg hn]
    refine ⟨max (100 - min A 30 - min C 15) 0, rfl, ?_, ?_⟩
    · have : (35 : ℚ) ≤ 100 - min A 30 - min C 15 := by linarith [hm1.2, hm3.2]
      exact le_trans this (le_max_left _ _)
    · exact max_le (by linarith [hm1.1, hm3.1]) (by norm_num)

theorem check_quality_bounds (df : Dataset) (hdf : df ≠ []) (hr : 0 < rows df) :
    ∃ rep q, check_data_quality df = some rep ∧
      rep.quality_score = some q ∧ 35 ≤ q ∧ q ≤ 100 := by
  have hrne : rows df ≠ 0 := Nat.pos_iff_ne_zero.mp hr
  set os : List (String × ℕ × ℚ) := (df.filter isNumericCol).map (fun c =>
    (c.name, outCount c, pyRound2 ((outCount c : ℚ) / (rows df : ℚ) * 100))) with hosdef
  have hos : outlierSummary df = some os := by
    unfold outlierSummary
    rw [if_neg hrne]
  have hms : missingSummary df ≠ [] := by
    cases df with
    | nil => exact absurd rfl hdf
    | cons c t => simp [missingSummary]
  have hmv : ∀ p ∈ missingSummary df, ∃ x, p.2.2 = some x ∧ 0 ≤ x := by
    intro p hp
    obtain ⟨c, _, rfl⟩ := List.mem_map.mp hp
    refine ⟨pyRound2 ((missCount c : ℚ) / (rows df : ℚ) * 100), ?_, ?_⟩
    · simp [missPct, hrne]
    · exact pyRound2_nonneg (by positivity)
  have hov : ∀ p ∈ os, 0 ≤ p.2.2 := by
    intro p hp
    rw [hosdef] at hp
    obtain ⟨c, _, rfl⟩ := List.mem_map.mp hp
    exact pyRound2_nonneg (by positivity)
  obtain ⟨q, hq, h35, h100⟩ :=
    calcQualityScore_bounds (missingSummary df) (rows df) (dupCount df) os hms hmv hov
  refine ⟨⟨rows df, df.length, missingSummary df, dupCount df, os, some q⟩, q, ?_, rfl, h35, h100⟩
  simp only [check_data_quality, hos, hq]

/-! ### Claim theorems: QualityProfiler -/

/-- C1 (code bug): on a dataset with columns and zero rows, `check_data_quality`
does not report 0 percentages with a score of 100; with a numeric column it
raises `ZeroDivisionError` (the outlier percentage divides `0 / 0` with Python
ints), and with only non-numeric columns the missing percentages and the score
are float NaN (numpy `0 / 0`). -/
theorem c1_zero_rows_bug :
    check_data_quality dfNumEmpty = none ∧
    (check_data_quality dfObjEmpty).map QualityReport.quality_score = some none := by
  constructor <;> rfl

/-- C2 counterexample: on a zero-row dataset with one (non-numeric) column the
quality score is NaN, not a number within `[0, 100]` as the claim states for
every dataset with at least one column. -/
theorem c2_counterexample :
    ¬ ∃ q : ℚ, (check_data_quality dfObjEmpty).bind QualityReport.quality_score = some q ∧
      0 ≤ q ∧ q ≤ 100 := by
  rintro ⟨q, hq, -⟩
  rw [show (check_data_quality dfObjEmpty).bind QualityReport.quality_score = none from rfl] at hq
  exact Option.noConfusion hq

/-- C2 (amended): for every dataset with at least one column and at least one
row, `check_data_quality` succeeds and its quality score is a number within
`[0, 100]`. -/
theorem c2_quality_score_bounded (df : Dataset) (hdf : df ≠ []) (hr : 0 < rows df) :
    ∃ rep q, check_data_quality df = some rep ∧
      rep.quality_score = some q ∧ 0 ≤ q ∧ q ≤ 100 := by
  obtain ⟨rep, q, h1, h2, h3, h4⟩ := check_quality_bounds df hdf hr
  exact ⟨rep, q, h1, h2, le_trans (by norm_num) h3, h4⟩

/-- C2 witness: the bound instantiated on a concrete one-row dataset. -/
theorem c2_witness :
    ∃ rep q, check_data_quality dfOne = some rep ∧
      rep.quality_score = some q ∧ 0 ≤ q ∧ q ≤ 100 :=
  c2_quality_score_bounded dfOne (by decide) (by decide)

/-- C3 counterexample: `check_data_quality` also fails on a dataset that has a
column (so nonzero columns) but zero rows, refuting "fails exactly when the
input dataset has zero columns". -/
theorem c3_counterexample :
    ¬ ((check_data_quality dfNumEmpty = none) ↔ dfNumEmpty = ([] : Dataset)) := by
  decide

/-- C3 (amended): `check_data_quality` fails (with `ZeroDivisionError`; no
`EmptyDatasetError` exists in the code) exactly when the dataset has zero
columns, or has zero rows and at least one numeric column. -/
theorem c3_error_characterization (df : Dataset) :
    check_data_quality df = none ↔
      df = [] ∨ (rows df = 0 ∧ df.filter isNumericCol ≠ []) := by
  unfold check_data_quality
  rcases hos : outlierSummary df with _ | os
  · have h := (outlierSummary_eq_none_iff df).mp hos
    simp [h]
  · have hne : ¬ (rows df = 0 ∧ df.filter isNumericCol ≠ []) := by
      intro hc
      rw [(outlierSummary_eq_none_iff df).mpr hc] at hos
      exact Option.noConfusion hos
    by_cases hdf : df = []
    · subst hdf
      simp [calcQualityScore, missingSummary]
    · have hmsne : missingSummary df ≠ [] := by
        cases df with
        | nil => exact absurd rfl hdf
        | cons c t => simp [missingSummary]
      rcases hsc : calcQualityScore (missingSummary df) (rows df) (dupCount df) os with _ | sc
      · exact absurd ((calcQualityScore_eq_none_iff _ _ _ _).mp hsc) hmsne
      · simp only [hsc]
        constructor
        · intro h
          exact Option.noConfusion h
        · intro h
          rcases h with h | h
          · exact absurd h hdf
          · exact absurd h hne

/-- C9: for every dataset with at least one column and at least one row, the
three deductions are capped at 30, 20 and 15, so the quality score is at
least 35 and the floor-at-0 clamp is unreachable. -/
theorem c9_quality_score_floor (df : Dataset) (hdf : df ≠ []) (hr : 0 < rows df) :
    ∃ rep q, check_data_quality df = some rep ∧
      rep.quality_score = some q ∧ 35 ≤ q := by
  obtain ⟨rep, q, h1, h2, h3, _⟩ := check_quality_bounds df hdf hr
  exact ⟨rep, q, h1, h2, h3⟩

/-- C9 witness: the floor instantiated on a concrete one-row dataset. -/
theorem c9_witness :
    ∃ rep q, check_data_quality dfOne = some rep ∧
      rep.quality_score = some q ∧ 35 ≤ q :=
  c9_quality_score_floor dfOne (by decide) (by decide)

/-! ### Claim theorems: SchemaChecker -/

/-- C7: the missing and unexpected column sets of `validate_data_schema` are
disjoint, and the validity flag holds exactly when both sets and the
type-mismatch list are empty. -/
theorem c7_schema_valid_iff (df : Dataset) (sch : List (String × String)) :
    Disjoint (validate_data_schema df sch).missing_columns
      (validate_data_schema df sch).unexpected_columns ∧
    ((validate_data_schema df sch).schema_valid = true ↔
      (validate_data_schema df sch).missing_columns = ∅ ∧
      (validate_data_schema df sch).unexpected_columns = ∅ ∧
      (validate_data_schema df sch).type_mismatches = []) := by
  simp only [validate_data_schema]
  refine ⟨disjoint_sdiff_sdiff, ?_, ?_⟩
  · intro h
    rw [Bool.and_eq_true] at h
    obtain ⟨h1, h2⟩ := h
    rw [List.isEmpty_iff] at h2
    by_cases hP : ((sch.map Prod.fst).toFinset \ (colNames df).toFinset).Nonempty ∨
        ((colNames df).toFinset \ (sch.map Prod.fst).toFinset).Nonempty
    · rw [if_pos hP] at h1
      exact absurd h1 (by simp)
    · push_neg at hP
      exact ⟨Finset.not_nonempty_iff_eq_empty.mp hP.1,
             Finset.not_nonempty_iff_eq_empty.mp hP.2, h2⟩
  · rintro ⟨h1, h2, h3⟩
    rw [Bool.and_eq_true, List.isEmpty_iff]
    refine ⟨?_, h3⟩
    rw [if_neg]
    rintro (hP | hP)
    · rw [h1] at hP
      exact Finset.not_nonempty_empty hP
    · rw [h2] at hP
      exact Finset.not_nonempty_empty hP

/-- C8 counterexample: with an empty expected schema and a non-null dataset,
`validate_data_schema` returns a normal result instead of failing, refuting
"fails with InvalidSchemaError exactly when the expected schema mapping is
empty or the dataset is null" (no `InvalidSchemaError` exists in the code). -/
theorem c8_counterexample :
    ¬ ((validate_data_schema_opt (some dfOneCol) [] = none) ↔
       (([] : List (String × String)) = [] ∨ (some dfOneCol : Option Dataset) = none)) := by
  decide

/-- C8 (amended): `validate_data_schema` never raises for a non-null dataset
— an empty expected schema included — and fails (with `AttributeError`, not a
dedicated `InvalidSchemaError`) exactly when the dataset is null. -/
theorem c8_fails_iff_null (df? : Option Dataset) (sch : List (String × String)) :
    validate_data_schema_opt df? sch = none ↔ df? = none := by
  cases df? <;> simp [validate_data_schema_opt]

/-! ### Claim theorems: BusinessRuleEngine -/

/-- C4 counterexample: `validate_business_rules` reads the ambient clock
(`datetime.now()`) inside the engine, so the same dataset evaluated at two
instants straddling a stored timestamp yields different results, refuting
"two evaluations of the same dataset with the same configuration yield
identical BusinessRuleResults". -/
theorem c4_counterexample :
    validate_business_rules dfDates 4 ≠ validate_business_rules dfDates 6 := by
  decide

/-- C4 (amended): the evaluation instant is sampled inside the engine rather
than caller-supplied, and the result depends on it only through the
future-date comparisons: two evaluations agree whenever their instants
classify every stored date value identically (in particular when sampled at
the same instant). -/
theorem c4_now_congruence (df : Dataset) (n1 n2 : ℚ)
    (h : ∀ q ∈ dateColVals df, (n1 < q ↔ n2 < q)) :
    validate_business_rules df n1 = validate_business_rules df n2 := by
  have hblock : ∀ n ∈ dateColumns, dateViolation df n1 n = dateViolation df n2 n := by
    intro n hn
    unfold dateViolation
    rcases hg : getCol df n with _ | c
    · rfl
    · have hcnt : cntNumP c (fun q => n1 < q) = cntNumP c (fun q => n2 < q) := by
        unfold cntNumP
        apply List.countP_congr
        intro v hv
        cases v with
        | null => simp
        | str s => simp
        | num q =>
          have hq : q ∈ dateColVals df := by
            unfold dateColVals
            rw [List.mem_flatMap]
            refine ⟨n, hn, ?_⟩
            rw [hg]
            exact List.mem_filterMap.mpr ⟨CVal.num q, hv, rfl⟩
          simpa using h q hq
      simp only [hcnt]
  unfold validate_business_rules ruleDates
  rw [show dateColumns.flatMap (dateViolation df n1) =
        dateViolation df n1 "transaction_timestamp" ++
        (dateViolation df n1 "registration_date" ++ []) from rfl,
      show dateColumns.flatMap (dateViolation df n2) =
        dateViolation df n2 "transaction_timestamp" ++
        (dateViolation df n2 "registration_date" ++ []) from rfl,
      hblock "transaction_timestamp" (by simp [dateColumns]),
      hblock "registration_date" (by simp [dateColumns])]

/-- C4 witness: two distinct instants that classify the stored date value the
same way produce identical results. -/
theorem c4_witness : validate_business_rules dfDates 1 = validate_business_rules dfDates 2 :=
  c4_now_congruence dfDates 1 2 (by decide)

/-! ### Drift helper lemmas -/

theorem colMean_of_var {c : Column} {v : ℚ} (h : colVar c = some v) :
    ∃ m, colMean c = some m := by
  by_cases hl : (numsOf c).length ≤ 1
  · exfalso
    have hnone : colVar c = none := by
      simp only [colVar]
      rw [if_pos hl]
    rw [hnone] at h
    exact Option.noConfusion h
  · have hne : ¬ (numsOf c).isEmpty = true := by
      rw [List.isEmpty_iff]
      intro hnil
      rw [hnil] at hl
      simp at hl
    refine ⟨(numsOf c).sum / ((numsOf c).length : ℚ), ?_⟩
    simp only [colMean]
    rw [if_neg hne]

theorem propOf_nonneg (c : Column) (v : CVal) : 0 ≤ propOf c v := by
  unfold propOf
  positivity

theorem sum_count_eq_length (l : List CVal) :
    ∑ v ∈ l.toFinset, l.count v = l.length := by
  classical
  simp

theorem sum_propOf_le_one (c : Column) (U : Finset CVal) : ∑ v ∈ U, propOf c v ≤ 1 := by
  classical
  have h1 : ∑ v ∈ U, propOf c v ≤ ∑ v ∈ U ∪ (catVals c).toFinset, propOf c v :=
    Finset.sum_le_sum_of_subset_of_nonneg Finset.subset_union_left
      (fun v _ _ => propOf_nonneg c v)
  have h2 : ∑ v ∈ U ∪ (catVals c).toFinset, propOf c v
      = ∑ v ∈ (catVals c).toFinset, propOf c v := by
    refine (Finset.sum_subset Finset.subset_union_right ?_).symm
    intro v _ hnv
    have hcnt : (catVals c).count v = 0 := by
      rw [List.count_eq_zero]
      exact fun hmem => hnv (List.mem_toFinset.mpr hmem)
    unfold propOf
    rw [hcnt]
    simp
  have h3 : ∑ v ∈ (catVals c).toFinset, propOf c v ≤ 1 := by
    unfold propOf
    rw [← Finset.sum_div]
    rcases Nat.eq_zero_or_pos (catVals c).length with hz | hpos
    · rw [hz]
      simp
    · have hsum : ∑ v ∈ (catVals c).toFinset, ((catVals c).count v : ℚ)
          = ((catVals c).length : ℚ) := by
        rw [← Nat.cast_sum, sum_count_eq_length]
      rw [hsum, div_self (ne_of_gt (by exact_mod_cast hpos))]
  linarith

theorem catScore_nonneg (rc cc : Column) : 0 ≤ catScore rc cc :=
  Finset.sum_nonneg (fun _ _ => abs_nonneg _)

theorem catScore_le_two (rc cc : Column) : catScore rc cc ≤ 2 := by
  unfold catScore
  have h1 : ∀ v ∈ (catVals rc).toFinset ∪ (catVals cc).toFinset,
      |propOf rc v - propOf cc v| ≤ propOf rc v + propOf cc v := by
    intro v _
    calc |propOf rc v - propOf cc v| ≤ |propOf rc v| + |propOf cc v| := abs_sub _ _
      _ = propOf rc v + propOf cc v := by
          rw [abs_of_nonneg (propOf_nonneg rc v), abs_of_nonneg (propOf_nonneg cc v)]
  calc ∑ v ∈ (catVals rc).toFinset ∪ (catVals cc).toFinset, |propOf rc v - propOf cc v|
      ≤ ∑ v ∈ (catVals rc).toFinset ∪ (catVals cc).toFinset, (propOf rc v + propOf cc v) :=
        Finset.sum_le_sum h1
    _ = (∑ v ∈ (catVals rc).toFinset ∪ (catVals cc).toFinset, propOf rc v) +
        ∑ v ∈ (catVals rc).toFinset ∪ (catVals cc).toFinset, propOf cc v :=
        Finset.sum_add_distrib
    _ ≤ 1 + 1 := add_le_add (sum_propOf_le_one rc _) (sum_propOf_le_one cc _)
    _ = 2 := by norm_num

theorem catScore_self (c : Column) : catScore c c = 0 := by
  unfold catScore
  simp

/-! ### Claim theorems: DriftDetector -/

/-- C5: a common numeric column whose reference standard deviation is zero
(sample variance `some 0`) is excluded from the numerical drift map, and the
overall drift score is the mean of exactly the per-column scores present in
the report's two maps. -/
theorem c5_zero_std_excluded (rdf cdf : Dataset) (tn tc : ℚ) :
    (∀ n rc, getCol rdf n = some rc → isNumericCol rc = true → colVar rc = some 0 →
      n ∉ (detect_data_drift rdf cdf tn tc).numerical_drift.map Prod.fst) ∧
    (detect_data_drift rdf cdf tn tc).overall_drift_score =
      pyMeanR ((detect_data_drift rdf cdf tn tc).numerical_drift.map (fun p => p.2.drift_score) ++
        (detect_data_drift rdf cdf tn tc).categorical_drift.map
          (fun p => some ((p.2.drift_score : ℚ) : ℝ))) := by
  constructor
  · intro n rc hget hnum hvar hmem
    have hstd : stdNePy rc = false := by simp [stdNePy, hvar]
    have hmem' : n ∈ (numPairs rdf cdf tn).map Prod.fst := hmem
    obtain ⟨p, hp, hfst⟩ := List.mem_map.mp hmem'
    obtain ⟨m, _, hf⟩ := List.mem_filterMap.mp hp
    rcases hg1 : getCol rdf m with _ | rc1 <;> simp only [hg1] at hf
    · exact Option.noConfusion hf
    · rcases hg2 : getCol cdf m with _ | cc <;> simp only [hg2] at hf
      · exact Option.noConfusion hf
      · split_ifs at hf with h1 h2
        injection hf with hf2
        rw [← hf2] at hfst
        have hmn : m = n := hfst
        subst hmn
        rw [hget] at hg1
        injection hg1 with he
        subst he
        simp [hstd] at h2
  · rfl

/-- C5 witness: a constant numeric column (variance 0) is absent from the
numerical drift map of a self-comparison. -/
theorem c5_witness :
    "x" ∉ (detect_data_drift refConst refConst 1 1).numerical_drift.map Prod.fst :=
  (c5_zero_std_excluded refConst refConst 1 1).1 "x" ⟨"x", "int64", [CVal.num 1, CVal.num 1]⟩
    (by rfl) (by rfl)
    (by
      have h : numsOf ⟨"x", "int64", [CVal.num 1, CVal.num 1]⟩ = [1, 1] := rfl
      simp [colVar, h])

/-- C6 counterexample: with a negative threshold, a self-comparison still
reports drift (`0 > -1`), refuting the claim for every threshold `t`. -/
theorem c6_counterexample :
    (detect_data_drift dfCat dfCat (-1) (-1)).drift_detected = true := by
  have hn : numPairs dfCat dfCat (-1) = [] := by
    simp [numPairs, commonNames, colNames, dfCat, getCol, List.find?, isNumericCol]
  have hc : catPairs dfCat dfCat (-1) =
      [("c", catEntry ⟨"c", "object", [CVal.str "a"]⟩ ⟨"c", "object", [CVal.str "a"]⟩ (-1))] := by
    simp [catPairs, commonNames, colNames, dfCat, getCol, List.find?, isNumericCol]
  show ((numPairs dfCat dfCat (-1)).map (fun p => p.2.drift_detected) ++
      (catPairs dfCat dfCat (-1)).map (fun p => p.2.drift_detected)).any id = true
  rw [hn, hc]
  simp [catEntry, catScore_self]

/-- C6 (amended): for nonnegative thresholds, self-comparison yields no
drift, and every common numeric column with positive reference standard
deviation (sample variance `some v` with `0 < v`) appears in the numerical
drift map with drift score 0. -/
theorem c6_self_drift (df : Dataset) (t : ℚ) (ht : 0 ≤ t) :
    (detect_data_drift df df t t).drift_detected = false ∧
    ∀ n rc v, n ∈ commonNames df df → getCol df n = some rc → isNumericCol rc = true →
      colVar rc = some v → 0 < v →
      (n, numEntry rc rc t) ∈ (detect_data_drift df df t t).numerical_drift ∧
      (numEntry rc rc t).drift_score = some 0 := by
  constructor
  · have hall : ∀ b ∈ ((numPairs df df t).map (fun p => p.2.drift_detected) ++
        (catPairs df df t).map (fun p => p.2.drift_detected)), b = false := by
      intro b hb
      rcases List.mem_append.mp hb with hb | hb
      · obtain ⟨p, hp, hbp⟩ := List.mem_map.mp hb
        obtain ⟨n, _, hf⟩ := List.mem_filterMap.mp hp
        rcases hg : getCol df n with _ | rc <;> simp only [hg] at hf
        · exact Option.noConfusion hf
        · split_ifs at hf with h1 h2
          injection hf with hf2
          rw [← hf2] at hbp
          rw [← hbp]
          rcases hvar : colVar rc with _ | v
          · simp [numEntry, numScore, hvar]
          · obtain ⟨m, hm⟩ := colMean_of_var hvar
            simp only [numEntry, numScore, hvar, hm]
            rw [sub_self, abs_zero, zero_div, if_neg (not_lt.mpr (by exact_mod_cast ht))]
      · obtain ⟨p, hp, hbp⟩ := List.mem_map.mp hb
        obtain ⟨n, _, hf⟩ := List.mem_filterMap.mp hp
        rcases hg : getCol df n with _ | rc <;> simp only [hg] at hf
        · exact Option.noConfusion hf
        · split_ifs at hf with h1
          injection hf with hf2
          rw [← hf2] at hbp
          rw [← hbp]
          simp only [catEntry, catScore_self]
          exact decide_eq_false (not_lt.mpr ht)
    show ((numPairs df df t).map (fun p => p.2.drift_detected) ++
        (catPairs df df t).map (fun p => p.2.drift_detected)).any id = false
    rw [List.any_eq_false]
    intro x hx
    simp [hall x hx]
  · intro n rc v hn hget hnum hvar hv
    have hstd : stdNePy rc = true := by
      simp [stdNePy, hvar]
      exact ne_of_gt hv
    constructor
    · show (n, numEntry rc rc t) ∈ numPairs df df t
      apply List.mem_filterMap.mpr
      refine ⟨n, hn, ?_⟩
      simp only [hget]
      rw [if_pos hnum, if_pos hstd]
    · obtain ⟨m, hm⟩ := colMean_of_var hvar
      simp only [numEntry, numScore, hvar, hm]
      rw [sub_self, abs_zero, zero_div]

/-- C6 witness: self-comparison at threshold 0 on a concrete numeric dataset
(sample variance 2 > 0) reports no drift, and the column's map entry has
drift score 0. -/
theorem c6_witness :
    (detect_data_drift dfNum6 dfNum6 0 0).drift_detected = false ∧
    ("x", numEntry ⟨"x", "float64", [CVal.num 1, CVal.num 3]⟩
        ⟨"x", "float64", [CVal.num 1, CVal.num 3]⟩ 0) ∈
      (detect_data_drift dfNum6 dfNum6 0 0).numerical_drift ∧
    (numEntry ⟨"x", "float64", [CVal.num 1, CVal.num 3]⟩
        ⟨"x", "float64", [CVal.num 1, CVal.num 3]⟩ 0).drift_score = some 0 :=
  ⟨(c6_self_drift dfNum6 0 (le_refl 0)).1,
   (c6_self_drift dfNum6 0 (le_refl 0)).2 "x"
     ⟨"x", "float64", [CVal.num 1, CVal.num 3]⟩ 2 (by decide) (by rfl) (by rfl)
     (by
       have h : numsOf ⟨"x", "float64", [CVal.num 1, CVal.num 3]⟩ = [1, 3] := rfl
       simp [colVar, h]
       norm_num)
     (by norm_num)⟩

/-- C10: every categorical per-column drift score lies in `[0, 2]`: it is the
total absolute difference of two frequency distributions each summing to at
most 1. -/
theorem c10_cat_drift_bounds (rdf cdf : Dataset) (tn tc : ℚ) :
    ∀ p ∈ (detect_data_drift rdf cdf tn tc).categorical_drift,
      0 ≤ p.2.drift_score ∧ p.2.drift_score ≤ 2 := by
  intro p hp
  have hp' : p ∈ catPairs rdf cdf tc := hp
  obtain ⟨n, _, hf⟩ := List.mem_filterMap.mp hp'
  rcases hg1 : getCol rdf n with _ | rc <;> simp only [hg1] at hf
  · exact Option.noConfusion hf
  · rcases hg2 : getCol cdf n with _ | cc <;> simp only [hg2] at hf
    · exact Option.noConfusion hf
    · split_ifs at hf with h1
      injection hf with hf2
      rw [← hf2]
      exact ⟨catScore_nonneg rc cc, catScore_le_two rc cc⟩

/-- C10 witness: the bounds instantiated on concrete disjoint one-value
categorical columns (score exactly 2). -/
theorem c10_witness :
    0 ≤ (catEntry ⟨"c", "object", [CVal.str "a"]⟩ ⟨"c", "object", [CVal.str "b"]⟩ 0).drift_score ∧
    (catEntry ⟨"c", "object", [CVal.str "a"]⟩ ⟨"c", "object", [CVal.str "b"]⟩ 0).drift_score ≤ 2 :=
  c10_cat_drift_bounds refCat curCat 0 0
    ("c", catEntry ⟨"c", "object", [CVal.str "a"]⟩ ⟨"c", "object", [CVal.str "b"]⟩ 0)
    (by
      show ("c", catEntry ⟨"c", "object", [CVal.str "a"]⟩ ⟨"c", "object", [CVal.str "b"]⟩ 0) ∈
        catPairs refCat curCat 0
      have hc : catPairs refCat curCat 0 =
          [("c", catEntry ⟨"c", "object", [CVal.str "a"]⟩ ⟨"c", "object", [CVal.str "b"]⟩ 0)] := by
        simp [catPairs, commonNames, colNames, refCat, curCat, getCol, List.find?, isNumericCol]
      rw [hc]
      exact List.mem_singleton.mpr rfl)

end DataVal
